import Mathlib

/-
Verification of the dayafter report pipeline (src/dayafterRev5.py).

The development shallowly embeds the data model and the computational
core of the script: the per-technology schema normalization performed by
`DataProcessor.process_tech_data` (column rename/drop, unit conversion),
the required-column row drop performed in `ReportGenerator.__init__`,
the summary-metric computation `ReportGenerator._calculate_summary_metrics`
(volume/offload, pivot-based peak detection, throughput at peak, top
cells), and the display-label truncation used by
`ReportGenerator._create_summary_page`.

DataFrames are modelled as lists of rows; float columns are modelled as
exact rationals.  Columns that can be missing (NaN) in the input —
Users, Disp, TputDLMB, TputULMB, the ones the constructor drops on — are
modelled as `Option ℚ`; pandas NaN-skipping aggregation is modelled by
summing/averaging the present values.  The `try/except` block of
`_calculate_summary_metrics` is modelled with `Except`: the pivot column
lookups `user_pivot['4G']` / `user_pivot['5G']` raise a KeyError when
the corresponding technology column is absent, and the surrounding
function catches any such error and returns the defaults computed in
step 1.  pandas behaviours relied on: `pivot_table` has a sorted index;
`Series.idxmax` returns the first index attaining the maximum;
`groupby` sorts keys; `Series.nlargest` sorts descending keeping first
occurrences on ties; Python `int()` truncates toward zero.
-/

namespace DayAfter

/-- A row of the (merged) dataset handled by `ReportGenerator`.  `Date` is
modelled as a natural number of hours since an epoch, so that `t % 24` is
the `.hour` field of the timestamp.  The four columns that
`ReportGenerator.__init__` drops NaN rows on are `Option ℚ` (NaN = `none`). -/
structure Row where
  date : ℕ
  grupo : String
  site : String
  cell : String
  tech : String
  volumeGB : ℚ
  tputDLMB : Option ℚ
  tputULMB : Option ℚ
  disp : Option ℚ
  users : Option ℚ
  acc : ℚ
deriving DecidableEq, Repr

/-- Embedding of `df.dropna(subset=['Users', 'Disp', 'TputDLMB', 'TputULMB'])`
from `ReportGenerator.__init__`: keep exactly the rows where all four
required columns are present. -/
def dropnaRequired (df : List Row) : List Row :=
  df.filter fun r => r.users.isSome && r.disp.isSome && r.tputDLMB.isSome && r.tputULMB.isSome

/-- Embedding of the group selection `self.df[self.df['Grupo'] == group]`. -/
def selectGroup (df : List Row) (g : String) : List Row :=
  df.filter fun r => r.grupo == g

/-- Embedding of the group-and-technology selection
`self.df[(self.df['Grupo'] == group) & (self.df['Tech'] == tech)]`. -/
def selectGroupTech (df : List Row) (g te : String) : List Row :=
  df.filter fun r => r.grupo == g && r.tech == te

/-- Sum of a float column with pandas `skipna` semantics: NaN (`none`)
entries contribute nothing, the empty sum is 0. -/
def sumOpt (l : List (Option ℚ)) : ℚ :=
  (l.filterMap id).sum

/-- Mean of a float column with pandas `skipna` semantics: NaN entries are
ignored; the mean of no present values is NaN (`none`). -/
def meanOpt (l : List (Option ℚ)) : Option ℚ :=
  let v := l.filterMap id
  if v.isEmpty then none else some (v.sum / (v.length : ℚ))

/-- Columns of `df_group.pivot_table(index='Date', columns='Tech',
values='Users', aggfunc='sum', fill_value=0)`: the technology values
occurring in the group dataset. -/
def pivotCols (df : List Row) : List String :=
  (df.map (·.tech)).dedup

/-- Index of the same pivot table: the distinct timestamps of the group
dataset, in ascending order (pandas pivot tables have a sorted index). -/
def pivotDates (df : List Row) : List ℕ :=
  List.insertionSort (· ≤ ·) ((df.map (·.date)).dedup)

/-- Entry of the Users pivot table at timestamp `t` and technology `te`:
the summed `Users` of the matching rows (0 for a missing combination,
matching `fill_value=0`). -/
def usersAt (df : List Row) (t : ℕ) (te : String) : ℚ :=
  sumOpt ((df.filter fun r => r.date == t && r.tech == te).map (·.users))

/-- Entry of the Total column `user_pivot['4G'] + user_pivot['5G']` at
timestamp `t`. -/
def totalAt (df : List Row) (t : ℕ) : ℚ :=
  usersAt df t "4G" + usersAt df t "5G"

/-- Embedding of `Series.idxmax` over an index list: the first index whose
value is maximal, `none` for an empty series. -/
def idxmaxBy (f : ℕ → ℚ) : List ℕ → Option ℕ
  | [] => none
  | d :: ds => some (ds.foldl (fun b u => if f u > f b then u else b) d)

/-- Embedding of the label `f"{peak_time.hour:02d}h"`. -/
def hourLabel (t : ℕ) : String :=
  (if t % 24 < 10 then "0" ++ toString (t % 24) else toString (t % 24)) ++ "h"

/-- Python `int()` applied to a float value: truncation toward zero. -/
def pyInt (q : ℚ) : ℤ :=
  if 0 ≤ q then ⌊q⌋ else -⌊-q⌋

/-- Keys of `df_peak.groupby('Cell')`: the distinct cell identifiers of the
peak-time selection, in ascending order (pandas `groupby` sorts keys). -/
def cellKeys (dfPeak : List Row) : List String :=
  List.insertionSort (fun a b => a ≤ b) ((dfPeak.map (·.cell)).dedup)

/-- Embedding of `df_peak.groupby('Cell')['Users'].sum()`: one `(cell, summed
users)` pair per distinct cell of the peak-time selection. -/
def cellUserSums (dfPeak : List Row) : List (String × ℚ) :=
  (cellKeys dfPeak).map fun c =>
    (c, sumOpt ((dfPeak.filter fun r => r.cell == c).map (·.users)))

/-- Comparison used to rank `(cell, users)` pairs: descending by the summed
user count. -/
def descSnd (a b : String × ℚ) : Prop :=
  b.2 ≤ a.2

instance : DecidableRel descSnd := fun a b => inferInstanceAs (Decidable (b.2 ≤ a.2))

instance : IsTotal (String × ℚ) descSnd := ⟨fun a b => le_total b.2 a.2⟩

instance : IsTrans (String × ℚ) descSnd := ⟨fun _ _ _ h1 h2 => le_trans h2 h1⟩

/-- Embedding of `Series.nlargest(n)` (default `keep='first'`): sort
descending by value — stably, so that ties keep the earlier key — and take
the first `n` entries. -/
def nlargest (n : ℕ) (l : List (String × ℚ)) : List (String × ℚ) :=
  (List.insertionSort descSnd l).take n

/-- Embedding of the four throughput-at-peak entries of
`_calculate_summary_metrics`: mean `TputDLMB` / `TputULMB` of the 4G and 5G
rows within the peak-time selection. -/
def tputAtPeak (dfPeak : List Row) : List (String × Option ℚ) :=
  [("4G DL", meanOpt ((dfPeak.filter fun r => r.tech == "4G").map (·.tputDLMB))),
   ("4G UL", meanOpt ((dfPeak.filter fun r => r.tech == "4G").map (·.tputULMB))),
   ("5G DL", meanOpt ((dfPeak.filter fun r => r.tech == "5G").map (·.tputDLMB))),
   ("5G UL", meanOpt ((dfPeak.filter fun r => r.tech == "5G").map (·.tputULMB)))]

/-- Result record of the dataclass `SummaryMetrics`.  `tput_metrics` and
`top_cells` are Python dicts, modelled as insertion-ordered association
lists; `peak_*` are `int(...)` conversions, hence `ℤ`. -/
structure SummaryMetrics where
  vol_4g : ℚ
  vol_5g : ℚ
  total_volume : ℚ
  offload : ℚ
  peak_hour : String
  peak_4g : ℤ
  peak_5g : ℤ
  peak_total : ℤ
  tput_metrics : List (String × Option ℚ)
  top_cells : List (String × ℚ)
deriving DecidableEq, Repr

/-- Data computed by a successful run of the `try` block of
`_calculate_summary_metrics` when the pivot is non-empty. -/
structure PeakInfo where
  peak_time : ℕ
  peak_hour : String
  peak_4g : ℤ
  peak_5g : ℤ
  peak_total : ℤ
  tput_metrics : List (String × Option ℚ)
  top_cells : List (String × ℚ)
deriving DecidableEq, Repr

/-- Embedding of the `try` block of `_calculate_summary_metrics`: build the
Users pivot, add the Total column — the lookups `user_pivot['4G']` and
`user_pivot['5G']` raise a KeyError when the column is absent — and, if the
pivot is non-empty, locate the peak timestamp with `idxmax` and compute the
peak counts, the throughput means and the top cells at that timestamp.
`Except.error` is a raised exception, `Except.ok none` is the
`user_pivot.empty` path with no assignments made. -/
def peakBlock (df : List Row) : Except String (Option PeakInfo) :=
  if "4G" ∈ pivotCols df then
    if "5G" ∈ pivotCols df then
      match idxmaxBy (totalAt df) (pivotDates df) with
      | none => Except.ok none
      | some t =>
        let dfPeak := df.filter fun r => r.date == t
        Except.ok (some
          { peak_time := t
            peak_hour := hourLabel t
            peak_4g := pyInt (usersAt df t "4G")
            peak_5g := pyInt (usersAt df t "5G")
            peak_total := pyInt (totalAt df t)
            tput_metrics := tputAtPeak dfPeak
            top_cells := nlargest 5 (cellUserSums dfPeak) })
    else Except.error "KeyError: 5G"
  else Except.error "KeyError: 4G"

/-- Step-1 value `df_group[df_group['Tech'] == '4G']['VolumeGB'].sum()`. -/
def vol4g (df : List Row) : ℚ :=
  ((df.filter fun r => r.tech == "4G").map (·.volumeGB)).sum

/-- Step-1 value `df_group[df_group['Tech'] == '5G']['VolumeGB'].sum()`. -/
def vol5g (df : List Row) : ℚ :=
  ((df.filter fun r => r.tech == "5G").map (·.volumeGB)).sum

/-- Step-1 value `total_volume = vol_4g + vol_5g`. -/
def totalVolume (df : List Row) : ℚ :=
  vol4g df + vol5g df

/-- Step-1 value `offload = vol_5g / total_volume if total_volume > 0 else 0`. -/
def offloadOf (df : List Row) : ℚ :=
  if totalVolume df > 0 then vol5g df / totalVolume df else 0

/-- The `SummaryMetrics` record as initialized before the `try` block:
step-1 volume figures plus the sentinel peak defaults. -/
def defaultMetrics (df : List Row) : SummaryMetrics :=
  { vol_4g := vol4g df
    vol_5g := vol5g df
    total_volume := totalVolume df
    offload := offloadOf df
    peak_hour := "N/A"
    peak_4g := 0
    peak_5g := 0
    peak_total := 0
    tput_metrics := []
    top_cells := [] }

/-- Embedding of `ReportGenerator._calculate_summary_metrics`: compute the
step-1 volume figures and defaults, then run the `try` block; a raised
exception is caught (and logged), leaving the defaults in place, and an
empty pivot likewise leaves the defaults in place. -/
def calcSummaryMetrics (df : List Row) : SummaryMetrics :=
  match peakBlock df with
  | Except.ok (some p) =>
    { defaultMetrics df with
      peak_hour := p.peak_hour
      peak_4g := p.peak_4g
      peak_5g := p.peak_5g
      peak_total := p.peak_total
      tput_metrics := p.tput_metrics
      top_cells := p.top_cells }
  | _ => defaultMetrics df

/-- Per-technology configuration record from `tech_configs`. -/
structure TechConfig where
  columns_rename : List (String × String)
  columns_to_drop : List String
  tech : String

/-- The `tech_configs['4G']` entry. -/
def config4G : TechConfig :=
  { columns_rename :=
      [("TIM_THROU_USER_PDCP_DL (Kbps)", "TputDLMB"),
       ("TIM_THROU_USER_PDCP_UL (Kbps)", "TputULMB"),
       ("TIM_DISP_COUNTER_TOTAL (%)", "Disp"),
       ("TIM_VOLUME_TOTAL_DLUL_ALLOP (KB)", "VolumeGB"),
       ("TIM_PRB_UTIL_MEAN_DL (%)", "PRB_DL"),
       ("TIM_USERS_RRC_CONN_MAX_SUM (Units)", "Users"),
       ("TIM_ACC (%)", "acc"),
       ("eNodeB", "Site")]
    columns_to_drop := ["Detentora", "Vendor"]
    tech := "4G" }

/-- The `tech_configs['5G']` entry. -/
def config5G : TechConfig :=
  { columns_rename :=
      [("TIM_ACC (%)", "acc"),
       ("TIM_DISP_COUNTER_TOTAL (%)", "Disp"),
       ("TIM_USERS_RRC_CONN_MAX_SUM (Units)", "Users"),
       ("TIM_VOLUME_TOTAL_DLUL_ALLOP (KB)", "VolumeGB"),
       ("TIM_THROU_USER_UL (Kbps)", "TputULMB"),
       ("TIM_THROU_USER_DL (Kbps)", "TputDLMB"),
       ("gNodeB", "Site")]
    columns_to_drop := ["Fornecedor", "gNodeB Name"]
    tech := "5G" }

/-- Embedding of `df.rename(columns=...)` at schema level: a column named in
the mapping is replaced by its target, any other column is kept. -/
def renameColumns (ren : List (String × String)) (cols : List String) : List String :=
  cols.map fun c => (ren.lookup c).getD c

/-- Embedding of `df.drop(columns=...)` at schema level (the dropped columns
are present in the expected raw inputs). -/
def dropColumns (drops : List String) (cols : List String) : List String :=
  cols.filter fun c => !(drops.contains c)

/-- Schema effect of `df['Tech'] = config['tech']`: a new `Tech` column is
appended when absent. -/
def addTechColumn (cols : List String) : List String :=
  if "Tech" ∈ cols then cols else cols ++ ["Tech"]

/-- Schema-level embedding of `DataProcessor.process_tech_data`: rename per
the configuration mapping, drop the configured columns, and add the `Tech`
tag column.  The group uppercase, date parsing and unit conversions change
values, not the column set. -/
def processTechSchema (cfg : TechConfig) (cols : List String) : List String :=
  addTechColumn (dropColumns cfg.columns_to_drop (renameColumns cfg.columns_rename cols))

/-- Expected raw 4G spreadsheet columns: the rename sources of
`tech_configs['4G']` plus the untouched `Date`, `Grupo`, `Cell` and the two
columns it drops. -/
def raw4GCols : List String :=
  ["Date", "Grupo", "eNodeB", "Cell",
   "TIM_THROU_USER_PDCP_DL (Kbps)", "TIM_THROU_USER_PDCP_UL (Kbps)",
   "TIM_DISP_COUNTER_TOTAL (%)", "TIM_VOLUME_TOTAL_DLUL_ALLOP (KB)",
   "TIM_PRB_UTIL_MEAN_DL (%)", "TIM_USERS_RRC_CONN_MAX_SUM (Units)",
   "TIM_ACC (%)", "Detentora", "Vendor"]

/-- Expected raw 5G spreadsheet columns: the rename sources of
`tech_configs['5G']` plus the untouched `Date`, `Grupo`, `Cell` and the two
columns it drops. -/
def raw5GCols : List String :=
  ["Date", "Grupo", "gNodeB", "Cell", "TIM_ACC (%)",
   "TIM_DISP_COUNTER_TOTAL (%)", "TIM_USERS_RRC_CONN_MAX_SUM (Units)",
   "TIM_VOLUME_TOTAL_DLUL_ALLOP (KB)", "TIM_THROU_USER_UL (Kbps)",
   "TIM_THROU_USER_DL (Kbps)", "Fornecedor", "gNodeB Name"]

/-- The `conversions` dict of `process_tech_data`: column name and divisor. -/
def conversions : List (String × ℚ) :=
  [("VolumeGB", 1000000), ("TputDLMB", 1000), ("TputULMB", 1000)]

/-- Value-level embedding of the conversion loop of `process_tech_data`:
for each `(col, divisor)` of `conversions`, if `col` is a column of the
frame, divide that column by the divisor.  A frame row is modelled as a
valuation of the column names, together with the list of columns present. -/
def applyConversions (cols : List String) (val : String → ℚ) : String → ℚ :=
  conversions.foldl
    (fun v cd => if cd.1 ∈ cols then (fun c => if c = cd.1 then v c / cd.2 else v c) else v)
    val

/-- Embedding of the top-cells display label of `_create_summary_page`:
`cell[:15] + '...' if len(cell) > 15 else cell`. -/
def truncateTopCellLabel (cell : String) : String :=
  if cell.length > 15 then cell.take 15 ++ "..." else cell

/-- Embedding of the worst-cells display label of `_create_summary_page`:
`cell[:5] + '...' if len(cell) > 15 else cell`. -/
def truncateWorstCellLabel (cell : String) : String :=
  if cell.length > 15 then cell.take 5 ++ "..." else cell

/-- A small dataset realizing the worked peak example of the specification:
per-timestamp Users sums 4G = 10, 20, 5 and 5G = 5, 15, 25 at the three
timestamps 10, 11 and 12 (all in one group, one site, one cell). -/
def mkRow (t : ℕ) (te : String) (u : ℚ) : Row :=
  { date := t, grupo := "G", site := "S", cell := "C", tech := te,
    volumeGB := 0, tputDLMB := some 0, tputULMB := some 0, disp := some 0,
    users := some u, acc := 0 }

/-- The worked peak-detection example dataset (timestamps T1 = 10, T2 = 11,
T3 = 12). -/
def examplePeakDf : List Row :=
  [mkRow 10 "4G" 10, mkRow 11 "4G" 20, mkRow 12 "4G" 5,
   mkRow 10 "5G" 5, mkRow 11 "5G" 15, mkRow 12 "5G" 25]

/-- A row with a chosen technology and volume, all other metric fields
present and zero. -/
def mkVolRow (te : String) (v : ℚ) : Row :=
  { date := 0, grupo := "G", site := "S", cell := "C", tech := te,
    volumeGB := v, tputDLMB := some 0, tputULMB := some 0, disp := some 0,
    users := some 0, acc := 0 }

/-- A one-row, 4G-only group dataset carrying 10 GB of volume. -/
def oneTech4GDf : List Row :=
  [mkVolRow "4G" 10]

/- Helper lemmas. -/

/-- The first-maximum fold underlying `idxmaxBy` returns an element of the
list that attains the maximum value. -/
theorem foldlMax_spec (f : ℕ → ℚ) (ds : List ℕ) (d : ℕ) :
    ds.foldl (fun b u => if f u > f b then u else b) d ∈ d :: ds ∧
      ∀ u ∈ d :: ds, f u ≤ f (ds.foldl (fun b u => if f u > f b then u else b) d) := by
  induction ds generalizing d with
  | nil => simp
  | cons x xs ih =>
    rw [List.foldl_cons]
    by_cases h : f x > f d
    · rw [if_pos h]
      obtain ⟨hm, hle⟩ := ih x
      refine ⟨List.mem_cons_of_mem _ hm, ?_⟩
      intro u hu
      rcases List.mem_cons.1 hu with rfl | hu
      · exact le_trans (le_of_lt h) (hle x (List.mem_cons_self _ _))
      · exact hle u hu
    · rw [if_neg h]
      obtain ⟨hm, hle⟩ := ih d
      refine ⟨?_, ?_⟩
      · rcases List.mem_cons.1 hm with h1 | h1
        · exact List.mem_cons.2 (Or.inl h1)
        · exact List.mem_cons_of_mem _ (List.mem_cons_of_mem _ h1)
      · intro u hu
        rcases List.mem_cons.1 hu with rfl | hu
        · exact hle u (List.mem_cons_self _ _)
        · rcases List.mem_cons.1 hu with rfl | hu
          · exact le_trans (not_lt.1 h) (hle d (List.mem_cons_self _ _))
          · exact hle u (List.mem_cons_of_mem _ hu)

/-- Correctness of the `idxmax` embedding: a returned index lies in the
series and its value is maximal. -/
theorem idxmaxBy_spec (f : ℕ → ℚ) (l : List ℕ) (t : ℕ)
    (h : idxmaxBy f l = some t) : t ∈ l ∧ ∀ u ∈ l, f u ≤ f t := by
  cases l with
  | nil => simp [idxmaxBy] at h
  | cons d ds =>
    simp only [idxmaxBy, Option.some.injEq] at h
    obtain ⟨hm, hle⟩ := foldlMax_spec f ds d
    subst h
    exact ⟨hm, hle⟩

/-- The `idxmax` embedding succeeds on a non-empty series. -/
theorem idxmaxBy_isSome (f : ℕ → ℚ) (l : List ℕ) (h : l ≠ []) :
    ∃ t, idxmaxBy f l = some t := by
  cases l with
  | nil => exact absurd rfl h
  | cons d ds => exact ⟨_, rfl⟩

/-- Membership in the pivot index is membership among the dataset's dates. -/
theorem mem_pivotDates (df : List Row) (t : ℕ) :
    t ∈ pivotDates df ↔ t ∈ df.map (·.date) := by
  unfold pivotDates
  rw [(List.perm_insertionSort _ _).mem_iff, List.mem_dedup]

/-- Membership among the pivot columns is membership among the dataset's
technology values. -/
theorem mem_pivotCols (df : List Row) (te : String) :
    te ∈ pivotCols df ↔ te ∈ df.map (·.tech) := by
  unfold pivotCols
  exact List.mem_dedup

/-- A dataset with an occurring technology value is non-empty. -/
theorem ne_nil_of_mem_pivotCols (df : List Row) (te : String)
    (h : te ∈ pivotCols df) : df ≠ [] := by
  intro hnil
  subst hnil
  simp [pivotCols] at h

/-- The pivot index of a non-empty dataset is non-empty. -/
theorem pivotDates_ne_nil (df : List Row) (h : df ≠ []) : pivotDates df ≠ [] := by
  cases df with
  | nil => exact absurd rfl h
  | cons r rs =>
    intro hnil
    have hmem : r.date ∈ pivotDates (r :: rs) := (mem_pivotDates _ _).2 (by simp)
    rw [hnil] at hmem
    exact (List.not_mem_nil _) hmem

/-- When both technology columns are present, the `try` block succeeds and
produces the peak data at the index returned by `idxmax`. -/
theorem peakBlock_ok_some (df : List Row) (h4 : "4G" ∈ pivotCols df)
    (h5 : "5G" ∈ pivotCols df) :
    ∃ t, idxmaxBy (totalAt df) (pivotDates df) = some t ∧
      peakBlock df = Except.ok (some
        { peak_time := t
          peak_hour := hourLabel t
          peak_4g := pyInt (usersAt df t "4G")
          peak_5g := pyInt (usersAt df t "5G")
          peak_total := pyInt (totalAt df t)
          tput_metrics := tputAtPeak (df.filter fun r => r.date == t)
          top_cells := nlargest 5 (cellUserSums (df.filter fun r => r.date == t)) }) := by
  have hne := ne_nil_of_mem_pivotCols df _ h4
  obtain ⟨t, ht⟩ := idxmaxBy_isSome (totalAt df) _ (pivotDates_ne_nil df hne)
  refine ⟨t, ht, ?_⟩
  unfold peakBlock
  rw [if_pos h4, if_pos h5, ht]

/-- A missing technology column makes the `try` block raise a KeyError. -/
theorem peakBlock_error_of_missing (df : List Row)
    (h : "4G" ∉ pivotCols df ∨ "5G" ∉ pivotCols df) :
    ∃ e, peakBlock df = Except.error e := by
  unfold peakBlock
  by_cases h4 : "4G" ∈ pivotCols df
  · have h5 : "5G" ∉ pivotCols df := h.resolve_left (not_not_intro h4)
    rw [if_pos h4, if_neg h5]
    exact ⟨_, rfl⟩
  · rw [if_neg h4]
    exact ⟨_, rfl⟩

/-- When the `try` block raises, the caught exception leaves the defaults in
place. -/
theorem calc_eq_default_of_error (df : List Row) (e : String)
    (h : peakBlock df = Except.error e) :
    calcSummaryMetrics df = defaultMetrics df := by
  simp [calcSummaryMetrics, h]

/-- When the `try` block succeeds with a peak, the result is the defaults
updated with the peak fields. -/
theorem calc_of_ok (df : List Row) (p : PeakInfo)
    (h : peakBlock df = Except.ok (some p)) :
    calcSummaryMetrics df =
      { defaultMetrics df with
        peak_hour := p.peak_hour
        peak_4g := p.peak_4g
        peak_5g := p.peak_5g
        peak_total := p.peak_total
        tput_metrics := p.tput_metrics
        top_cells := p.top_cells } := by
  simp [calcSummaryMetrics, h]

/-- The volume and offload fields of the result are always the step-1
values, whatever the `try` block does. -/
theorem calc_vol_fields (df : List Row) :
    (calcSummaryMetrics df).vol_4g = vol4g df ∧
    (calcSummaryMetrics df).vol_5g = vol5g df ∧
    (calcSummaryMetrics df).total_volume = totalVolume df ∧
    (calcSummaryMetrics df).offload = offloadOf df := by
  cases hpb : peakBlock df with
  | error e => simp [calcSummaryMetrics, hpb, defaultMetrics]
  | ok o =>
    cases o with
    | none => simp [calcSummaryMetrics, hpb, defaultMetrics]
    | some p => simp [calcSummaryMetrics, hpb, defaultMetrics]

/-- Inversion of a successful `try` block: the recorded peak data is the
one computed at the `idxmax` timestamp. -/
theorem peakBlock_inv (df : List Row) (p : PeakInfo)
    (h : peakBlock df = Except.ok (some p)) :
    idxmaxBy (totalAt df) (pivotDates df) = some p.peak_time ∧
    p.peak_hour = hourLabel p.peak_time ∧
    p.peak_4g = pyInt (usersAt df p.peak_time "4G") ∧
    p.peak_5g = pyInt (usersAt df p.peak_time "5G") ∧
    p.peak_total = pyInt (totalAt df p.peak_time) ∧
    p.tput_metrics = tputAtPeak (df.filter fun r => r.date == p.peak_time) ∧
    p.top_cells = nlargest 5 (cellUserSums (df.filter fun r => r.date == p.peak_time)) := by
  by_cases h4 : "4G" ∈ pivotCols df
  · by_cases h5 : "5G" ∈ pivotCols df
    · obtain ⟨t, ht, heq⟩ := peakBlock_ok_some df h4 h5
      rw [heq] at h
      have hp := (Option.some.inj (Except.ok.inj h)).symm
      subst hp
      exact ⟨ht, rfl, rfl, rfl, rfl, rfl, rfl⟩
    · obtain ⟨e, he⟩ := peakBlock_error_of_missing df (Or.inr h5)
      rw [he] at h
      cases h
  · obtain ⟨e, he⟩ := peakBlock_error_of_missing df (Or.inl h4)
    rw [he] at h
    cases h

/-- The ranked list returned by the `nlargest` embedding has at most `n`
entries. -/
theorem nlargest_length_le (n : ℕ) (l : List (String × ℚ)) :
    (nlargest n l).length ≤ n := by
  simp [nlargest]

/-- The ranked list returned by the `nlargest` embedding is sorted
descending by value. -/
theorem nlargest_sorted (n : ℕ) (l : List (String × ℚ)) :
    List.Sorted descSnd (nlargest n l) :=
  List.Pairwise.sublist (List.take_sublist n _) (List.sorted_insertionSort descSnd l)

/-- Entries of the ranked list come from the original association list. -/
theorem mem_of_mem_nlargest (n : ℕ) (l : List (String × ℚ)) (x : String × ℚ)
    (h : x ∈ nlargest n l) : x ∈ l :=
  (List.perm_insertionSort descSnd l).subset (List.Sublist.subset (List.take_sublist n _) h)

/-- An entry of the per-cell user sums names a cell of the selection and
carries the summed users of that cell's rows. -/
theorem cellUserSums_mem (dfPeak : List Row) (cu : String × ℚ)
    (h : cu ∈ cellUserSums dfPeak) :
    (∃ r ∈ dfPeak, r.cell = cu.1) ∧
      cu.2 = sumOpt ((dfPeak.filter fun r => r.cell == cu.1).map (·.users)) := by
  unfold cellUserSums at h
  obtain ⟨c, hc, hcu⟩ := List.mem_map.1 h
  have hc2 : c ∈ dfPeak.map (·.cell) := by
    have hmem := (List.perm_insertionSort _ _).subset hc
    simpa [List.mem_dedup] using hmem
  obtain ⟨r, hr, hrc⟩ := List.mem_map.1 hc2
  cases hcu
  exact ⟨⟨r, hr, hrc⟩, rfl⟩

/-- Pointwise description of the conversion loop: each of the three
configured columns is divided by its divisor when present, every other
column is untouched. -/
theorem applyConversions_apply (cols : List String) (val : String → ℚ) (c : String) :
    applyConversions cols val c =
      if c = "TputULMB" ∧ "TputULMB" ∈ cols then val c / 1000
      else if c = "TputDLMB" ∧ "TputDLMB" ∈ cols then val c / 1000
      else if c = "VolumeGB" ∧ "VolumeGB" ∈ cols then val c / 1000000
      else val c := by
  simp only [applyConversions, conversions, List.foldl_cons, List.foldl_nil]
  by_cases h1 : "VolumeGB" ∈ cols <;> by_cases h2 : "TputDLMB" ∈ cols <;>
    by_cases h3 : "TputULMB" ∈ cols <;>
    simp only [h1, h2, h3, if_true, if_false, and_true, and_false,
      not_false_eq_true, if_neg] <;>
    split_ifs <;> simp_all

/-- Peak data of the worked example: totals 15, 35, 30 at timestamps 10,
11, 12, hence the peak is at timestamp 11 with 20 4G users, 15 5G users
and total 35. -/
def examplePeakInfo : PeakInfo :=
  { peak_time := 11
    peak_hour := "11h"
    peak_4g := 20
    peak_5g := 15
    peak_total := 35
    tput_metrics := [("4G DL", some 0), ("4G UL", some 0), ("5G DL", some 0), ("5G UL", some 0)]
    top_cells := [("C", 35)] }

/-- Per-timestamp totals of the worked example dataset. -/
theorem examplePeakDf_totals :
    totalAt examplePeakDf 10 = 15 ∧ totalAt examplePeakDf 11 = 35 ∧
      totalAt examplePeakDf 12 = 30 := by
  norm_num [totalAt, usersAt, sumOpt, examplePeakDf, mkRow, List.filter, List.filterMap]

/-- Evaluation of the `try` block on the worked example dataset. -/
theorem examplePeakDf_peakBlock :
    peakBlock examplePeakDf = Except.ok (some examplePeakInfo) := by
  obtain ⟨h10, h11, h12⟩ := examplePeakDf_totals
  have hpd : pivotDates examplePeakDf = [10, 11, 12] := by decide
  have hidx : idxmaxBy (totalAt examplePeakDf) (pivotDates examplePeakDf) = some 11 := by
    rw [hpd]
    norm_num [idxmaxBy, h10, h11, h12]
  have hpeakfilter : (examplePeakDf.filter fun r => r.date == 11)
      = [mkRow 11 "4G" 20, mkRow 11 "5G" 15] := by decide
  have hu4 : usersAt examplePeakDf 11 "4G" = 20 := by
    norm_num [usersAt, sumOpt, examplePeakDf, mkRow, List.filter, List.filterMap]
  have hu5 : usersAt examplePeakDf 11 "5G" = 15 := by
    norm_num [usersAt, sumOpt, examplePeakDf, mkRow, List.filter, List.filterMap]
  have htput : tputAtPeak [mkRow 11 "4G" 20, mkRow 11 "5G" 15]
      = [("4G DL", some 0), ("4G UL", some 0), ("5G DL", some 0), ("5G UL", some 0)] := by
    norm_num [tputAtPeak, meanOpt, mkRow, List.filter, List.filterMap]
  have htop : nlargest 5 (cellUserSums [mkRow 11 "4G" 20, mkRow 11 "5G" 15]) = [("C", 35)] := by
    norm_num [nlargest, cellUserSums, cellKeys, sumOpt, mkRow, List.filter, List.filterMap,
      List.insertionSort, List.orderedInsert, List.dedup, List.pwFilter]
  unfold peakBlock
  rw [if_pos (by decide : ("4G" : String) ∈ pivotCols examplePeakDf),
      if_pos (by decide : ("5G" : String) ∈ pivotCols examplePeakDf), hidx]
  simp only [hpeakfilter, htput, htop]
  norm_num [examplePeakInfo, pyInt, h11, hu4, hu5]
  exact (by decide : hourLabel 11 = "11h")

/- Claim theorems. -/

/-- C1: for a group dataset with rows of both technologies,
`_calculate_summary_metrics` picks as peak a timestamp of the dataset whose
Total pivot value (4G summed Users plus 5G summed Users) is maximal, and
reports the pivot values at that timestamp; on the worked example (4G sums
10, 20, 5 and 5G sums 5, 15, 25 at timestamps 10, 11, 12) the peak is the
second timestamp with peak_4g = 20, peak_5g = 15, peak_total = 35. -/
theorem C1_peak_detection (df : List Row)
    (h4 : "4G" ∈ pivotCols df) (h5 : "5G" ∈ pivotCols df) :
    (∃ t ∈ df.map (·.date),
        (∀ u ∈ df.map (·.date), totalAt df u ≤ totalAt df t) ∧
        totalAt df t = usersAt df t "4G" + usersAt df t "5G" ∧
        (calcSummaryMetrics df).peak_hour = hourLabel t ∧
        (calcSummaryMetrics df).peak_4g = pyInt (usersAt df t "4G") ∧
        (calcSummaryMetrics df).peak_5g = pyInt (usersAt df t "5G") ∧
        (calcSummaryMetrics df).peak_total = pyInt (totalAt df t)) ∧
    (calcSummaryMetrics examplePeakDf).peak_hour = "11h" ∧
    (calcSummaryMetrics examplePeakDf).peak_4g = 20 ∧
    (calcSummaryMetrics examplePeakDf).peak_5g = 15 ∧
    (calcSummaryMetrics examplePeakDf).peak_total = 35 := by
  constructor
  · obtain ⟨t, ht, hpb⟩ := peakBlock_ok_some df h4 h5
    obtain ⟨htmem, htle⟩ := idxmaxBy_spec _ _ _ ht
    have hcalc := calc_of_ok df _ hpb
    refine ⟨t, (mem_pivotDates df t).1 htmem,
      fun u hu => htle u ((mem_pivotDates df u).2 hu), rfl, ?_, ?_, ?_, ?_⟩
    · rw [hcalc]
    · rw [hcalc]
    · rw [hcalc]
    · rw [hcalc]
  · have hcalc := calc_of_ok examplePeakDf _ examplePeakDf_peakBlock
    rw [hcalc]
    exact ⟨rfl, rfl, rfl, rfl⟩

/-- Witness instantiating `C1_peak_detection` on the worked example. -/
theorem C1_peak_detection_witness :
    (("4G" ∈ pivotCols examplePeakDf) ∧ ("5G" ∈ pivotCols examplePeakDf)) ∧
    (∃ t ∈ examplePeakDf.map (·.date),
      ∀ u ∈ examplePeakDf.map (·.date),
        totalAt examplePeakDf u ≤ totalAt examplePeakDf t) :=
  ⟨⟨by decide, by decide⟩,
    ((C1_peak_detection examplePeakDf (by decide) (by decide)).1).imp
      fun _ ht => ⟨ht.1, ht.2.1⟩⟩

/-- C2 counterexample: a group with only 4G volume (10 GB) has nonzero
total_volume but offload 0, so offload = 0 does not happen exactly when
total_volume = 0. -/
theorem C2_offload_counterexample :
    (calcSummaryMetrics oneTech4GDf).offload = 0 ∧
    (calcSummaryMetrics oneTech4GDf).total_volume ≠ 0 := by
  obtain ⟨h1, h2, h3, h4⟩ := calc_vol_fields oneTech4GDf
  rw [h4, h3]
  have hv4 : vol4g oneTech4GDf = 10 := by simp [vol4g, oneTech4GDf, mkVolRow]
  have hv5 : vol5g oneTech4GDf = 0 := by simp [vol5g, oneTech4GDf, mkVolRow]
  constructor
  · norm_num [offloadOf, totalVolume, hv4, hv5]
  · norm_num [totalVolume, hv4, hv5]

/-- C2 (amended): offload is vol_5g / total_volume when total_volume is
positive and 0 otherwise — in particular 0 when total_volume = 0 (though
also when vol_5g = 0) — and lies in [0, 1] whenever 0 ≤ vol_5g ≤
total_volume. -/
theorem C2_offload_amended (df : List Row) :
    ((calcSummaryMetrics df).total_volume = 0 → (calcSummaryMetrics df).offload = 0) ∧
    ((calcSummaryMetrics df).total_volume > 0 →
      (calcSummaryMetrics df).offload =
        (calcSummaryMetrics df).vol_5g / (calcSummaryMetrics df).total_volume) ∧
    (0 ≤ (calcSummaryMetrics df).vol_5g →
      (calcSummaryMetrics df).vol_5g ≤ (calcSummaryMetrics df).total_volume →
      0 ≤ (calcSummaryMetrics df).offload ∧ (calcSummaryMetrics df).offload ≤ 1) := by
  obtain ⟨h1, h2, h3, h4⟩ := calc_vol_fields df
  rw [h2, h3, h4]
  unfold offloadOf
  refine ⟨?_, ?_, ?_⟩
  · intro h0
    rw [h0]
    norm_num
  · intro hpos
    rw [if_pos hpos]
  · intro hv5 hle
    by_cases hpos : totalVolume df > 0
    · rw [if_pos hpos]
      exact ⟨div_nonneg hv5 (le_of_lt hpos), (div_le_one hpos).2 hle⟩
    · rw [if_neg hpos]
      norm_num

/-- A two-row group dataset with 1 GB on each technology. -/
def twoTechDf : List Row :=
  [mkVolRow "4G" 1, mkVolRow "5G" 1]

/-- Witness instantiating `C2_offload_amended` on a dataset with volume on
both technologies. -/
theorem C2_offload_amended_witness :
    (0 ≤ (calcSummaryMetrics twoTechDf).vol_5g ∧
      (calcSummaryMetrics twoTechDf).vol_5g ≤ (calcSummaryMetrics twoTechDf).total_volume) ∧
    0 ≤ (calcSummaryMetrics twoTechDf).offload ∧ (calcSummaryMetrics twoTechDf).offload ≤ 1 := by
  have h4 : vol4g twoTechDf = 1 := by simp [vol4g, twoTechDf, mkVolRow]
  have h5 : vol5g twoTechDf = 1 := by simp [vol5g, twoTechDf, mkVolRow]
  have hv5 : 0 ≤ (calcSummaryMetrics twoTechDf).vol_5g := by
    rw [(calc_vol_fields twoTechDf).2.1]
    norm_num [h5]
  have hle : (calcSummaryMetrics twoTechDf).vol_5g ≤ (calcSummaryMetrics twoTechDf).total_volume := by
    rw [(calc_vol_fields twoTechDf).2.1, (calc_vol_fields twoTechDf).2.2.1]
    norm_num [totalVolume, h4, h5]
  exact ⟨⟨hv5, hle⟩, (C2_offload_amended twoTechDf).2.2 hv5 hle⟩

/-- C3 counterexample: on the expected raw inputs, the 4G output schema
contains `PRB_DL` while the 5G output schema does not, so the two outputs of
`process_tech_data` do not have the same column set. -/
theorem C3_schema_counterexample :
    "PRB_DL" ∈ processTechSchema config4G raw4GCols ∧
    "PRB_DL" ∉ processTechSchema config5G raw5GCols := by decide

/-- C3 (amended): on the expected raw inputs the two output schemas agree on
the ten canonical columns plus `Tech`, and differ exactly by the extra
`PRB_DL` column of the 4G output. -/
theorem C3_schema_amended :
    processTechSchema config4G raw4GCols =
      ["Date", "Grupo", "Site", "Cell", "TputDLMB", "TputULMB", "Disp", "VolumeGB",
       "PRB_DL", "Users", "acc", "Tech"] ∧
    processTechSchema config5G raw5GCols =
      ["Date", "Grupo", "Site", "Cell", "acc", "Disp", "Users", "VolumeGB",
       "TputULMB", "TputDLMB", "Tech"] ∧
    ((processTechSchema config4G raw4GCols).erase "PRB_DL").Perm
      (processTechSchema config5G raw5GCols) := by decide

/-- C4: whatever the `try` block of `_calculate_summary_metrics` does, the
function returns, its volume and offload fields are the step-1 values, and a
raised exception is caught, yielding exactly the default metrics. -/
theorem C4_exception_safety (df : List Row) :
    (calcSummaryMetrics df).vol_4g = vol4g df ∧
    (calcSummaryMetrics df).vol_5g = vol5g df ∧
    (calcSummaryMetrics df).total_volume = totalVolume df ∧
    (calcSummaryMetrics df).offload = offloadOf df ∧
    ∀ e, peakBlock df = Except.error e → calcSummaryMetrics df = defaultMetrics df := by
  obtain ⟨h1, h2, h3, h4⟩ := calc_vol_fields df
  exact ⟨h1, h2, h3, h4, fun e he => calc_eq_default_of_error df e he⟩

/-- Witness instantiating `C4_exception_safety` on a group whose `try` block
raises (a 4G-only group). -/
theorem C4_exception_safety_witness :
    peakBlock oneTech4GDf = Except.error "KeyError: 5G" ∧
      calcSummaryMetrics oneTech4GDf = defaultMetrics oneTech4GDf := by
  have he : peakBlock oneTech4GDf = Except.error "KeyError: 5G" := by
    unfold peakBlock
    rw [if_pos (by decide : ("4G" : String) ∈ pivotCols oneTech4GDf),
        if_neg (by decide : ¬ (("5G" : String) ∈ pivotCols oneTech4GDf))]
  exact ⟨he, (C4_exception_safety oneTech4GDf).2.2.2.2 "KeyError: 5G" he⟩

/-- C5: on an empty group dataset `_calculate_summary_metrics` returns (does
not raise) the all-default record: zero volumes, offload 0, peak_hour "N/A",
zero peak counts, empty throughput metrics and empty top cells. -/
theorem C5_empty_dataset :
    calcSummaryMetrics [] =
      { vol_4g := 0, vol_5g := 0, total_volume := 0, offload := 0, peak_hour := "N/A",
        peak_4g := 0, peak_5g := 0, peak_total := 0, tput_metrics := [], top_cells := [] } := by
  have he : peakBlock [] = Except.error "KeyError: 4G" := by
    unfold peakBlock
    rw [if_neg (by decide : ¬ (("4G" : String) ∈ pivotCols ([] : List Row)))]
  rw [calc_eq_default_of_error _ _ he]
  norm_num [defaultMetrics, vol4g, vol5g, totalVolume, offloadOf, List.filter]

/-- C6: when the `try` block detects a peak, top_cells is the 5-largest
ranking of the per-cell summed Users at the peak timestamp: it has length at
most 5, is sorted descending by summed user count, and each entry names a
cell present at the peak timestamp and carries that cell's summed Users
there. -/
theorem C6_top_cells (df : List Row) (p : PeakInfo)
    (h : peakBlock df = Except.ok (some p)) :
    (calcSummaryMetrics df).top_cells =
      nlargest 5 (cellUserSums (df.filter fun r => r.date == p.peak_time)) ∧
    (calcSummaryMetrics df).top_cells.length ≤ 5 ∧
    List.Sorted descSnd (calcSummaryMetrics df).top_cells ∧
    ∀ cu ∈ (calcSummaryMetrics df).top_cells,
      (∃ r ∈ df, r.date = p.peak_time ∧ r.cell = cu.1) ∧
      cu.2 = sumOpt (((df.filter fun r => r.date == p.peak_time).filter
        fun r => r.cell == cu.1).map (·.users)) := by
  have hcalc := calc_of_ok df p h
  have htc : (calcSummaryMetrics df).top_cells = p.top_cells := by rw [hcalc]
  have htop := (peakBlock_inv df p h).2.2.2.2.2.2
  rw [htc, htop]
  refine ⟨rfl, nlargest_length_le 5 _, nlargest_sorted 5 _, ?_⟩
  intro cu hcu
  have hmem := mem_of_mem_nlargest 5 _ cu hcu
  obtain ⟨⟨r, hr, hrc⟩, hval⟩ := cellUserSums_mem _ cu hmem
  have hrdf := List.mem_filter.1 hr
  refine ⟨⟨r, hrdf.1, ?_, hrc⟩, hval⟩
  simpa using hrdf.2

/-- Witness instantiating `C6_top_cells` on the worked example. -/
theorem C6_top_cells_witness :
    peakBlock examplePeakDf = Except.ok (some examplePeakInfo) ∧
    (calcSummaryMetrics examplePeakDf).top_cells.length ≤ 5 ∧
    List.Sorted descSnd (calcSummaryMetrics examplePeakDf).top_cells :=
  ⟨examplePeakDf_peakBlock,
   (C6_top_cells examplePeakDf examplePeakInfo examplePeakDf_peakBlock).2.1,
   (C6_top_cells examplePeakDf examplePeakInfo examplePeakDf_peakBlock).2.2.1⟩

/-- C7: a row of the constructor-filtered working dataset — or of any
group/technology selection of it used by the report operations — has all
four required fields Users, Disp, TputDLMB, TputULMB present, and comes from
the raw input. -/
theorem C7_required_columns (raw : List Row) (g te : String) (r : Row)
    (h : r ∈ dropnaRequired raw ∨ r ∈ selectGroup (dropnaRequired raw) g ∨
      r ∈ selectGroupTech (dropnaRequired raw) g te) :
    r.users.isSome ∧ r.disp.isSome ∧ r.tputDLMB.isSome ∧ r.tputULMB.isSome ∧ r ∈ raw := by
  have hd : r ∈ dropnaRequired raw := by
    rcases h with h | h | h
    · exact h
    · simp only [selectGroup] at h
      exact (List.mem_filter.1 h).1
    · simp only [selectGroupTech] at h
      exact (List.mem_filter.1 h).1
  simp only [dropnaRequired] at hd
  have hm := List.mem_filter.1 hd
  have hc := hm.2
  simp only [Bool.and_eq_true] at hc
  exact ⟨hc.1.1.1, hc.1.1.2, hc.1.2, hc.2, hm.1⟩

/-- A raw row whose TputDLMB is missing, used to exercise the hard drop. -/
def badRow : Row :=
  { date := 0, grupo := "G", site := "S", cell := "C", tech := "4G",
    volumeGB := 0, tputDLMB := none, tputULMB := some 0, disp := some 0,
    users := some 0, acc := 0 }

/-- A raw input containing one complete row and one row with a missing
required field. -/
def rawWitnessDf : List Row :=
  [mkRow 10 "4G" 10, badRow]

/-- Witness instantiating `C7_required_columns`: the surviving row of the
filtered raw input has all four fields present. -/
theorem C7_required_columns_witness :
    (mkRow 10 "4G" 10) ∈ dropnaRequired rawWitnessDf ∧
    ((mkRow 10 "4G" 10).users.isSome ∧ (mkRow 10 "4G" 10).disp.isSome ∧
      (mkRow 10 "4G" 10).tputDLMB.isSome ∧ (mkRow 10 "4G" 10).tputULMB.isSome ∧
      (mkRow 10 "4G" 10) ∈ rawWitnessDf) :=
  ⟨by decide, C7_required_columns rawWitnessDf "G" "4G" (mkRow 10 "4G" 10) (Or.inl (by decide))⟩

/-- C8 counterexample: a negative raw volume stays negative after the unit
conversion, so the converted values are not non-negative for all inputs. -/
theorem C8_conversion_counterexample :
    applyConversions ["VolumeGB"] (fun _ => (-1 : ℚ)) "VolumeGB" < 0 := by
  rw [applyConversions_apply]
  rw [if_neg (by decide), if_neg (by decide), if_pos (by decide)]
  norm_num

/-- C8 (amended): the conversion loop divides VolumeGB by exactly 1,000,000
and TputDLMB/TputULMB by exactly 1,000 when the column is present, leaves
absent columns untouched, and preserves non-negativity: the converted values
are non-negative whenever the raw values are. -/
theorem C8_unit_conversion_amended (cols : List String) (val : String → ℚ) :
    ("VolumeGB" ∈ cols → applyConversions cols val "VolumeGB" = val "VolumeGB" / 1000000) ∧
    ("VolumeGB" ∉ cols → applyConversions cols val "VolumeGB" = val "VolumeGB") ∧
    ("TputDLMB" ∈ cols → applyConversions cols val "TputDLMB" = val "TputDLMB" / 1000) ∧
    ("TputDLMB" ∉ cols → applyConversions cols val "TputDLMB" = val "TputDLMB") ∧
    ("TputULMB" ∈ cols → applyConversions cols val "TputULMB" = val "TputULMB" / 1000) ∧
    ("TputULMB" ∉ cols → applyConversions cols val "TputULMB" = val "TputULMB") ∧
    ∀ c, 0 ≤ val c → 0 ≤ applyConversions cols val c := by
  refine ⟨?_, ?_, ?_, ?_, ?_, ?_, ?_⟩
  · intro h
    rw [applyConversions_apply]
    simp [h]
  · intro h
    rw [applyConversions_apply]
    simp [h]
  · intro h
    rw [applyConversions_apply]
    simp [h]
  · intro h
    rw [applyConversions_apply]
    simp [h]
  · intro h
    rw [applyConversions_apply]
    simp [h]
  · intro h
    rw [applyConversions_apply]
    simp [h]
  · intro c h
    rw [applyConversions_apply]
    split_ifs
    · exact div_nonneg h (by norm_num)
    · exact div_nonneg h (by norm_num)
    · exact div_nonneg h (by norm_num)
    · exact h

/-- Witness instantiating `C8_unit_conversion_amended` on a present
VolumeGB column with raw value 3. -/
theorem C8_unit_conversion_amended_witness :
    "VolumeGB" ∈ ["VolumeGB", "TputDLMB"] ∧
      applyConversions ["VolumeGB", "TputDLMB"] (fun _ => (3 : ℚ)) "VolumeGB" = 3 / 1000000 :=
  ⟨by decide,
   (C8_unit_conversion_amended ["VolumeGB", "TputDLMB"] (fun _ => (3 : ℚ))).1 (by decide)⟩

/-- C9: on the top-cells page an identifier longer than 15 characters is
shown as its first 15 characters plus "..." and is unchanged otherwise,
while on the worst-cells page a 20-character identifier is shown as its
first 5 characters plus "...". -/
theorem C9_label_truncation (s t u : String) (hs : s.length > 15)
    (ht : t.length ≤ 15) (hu : u.length = 20) :
    truncateTopCellLabel s = s.take 15 ++ "..." ∧
    truncateTopCellLabel t = t ∧
    truncateWorstCellLabel u = u.take 5 ++ "..." := by
  refine ⟨?_, ?_, ?_⟩
  · simp only [truncateTopCellLabel]
    rw [if_pos hs]
  · simp only [truncateTopCellLabel]
    rw [if_neg (by omega)]
  · simp only [truncateWorstCellLabel]
    rw [if_pos (by omega)]

/-- Witness instantiating `C9_label_truncation` on a 20-character and a
5-character identifier. -/
theorem C9_label_truncation_witness :
    truncateTopCellLabel "abcdefghijklmnopqrst" = "abcdefghijklmnopqrst".take 15 ++ "..." ∧
    truncateTopCellLabel "short" = "short" ∧
    truncateWorstCellLabel "abcdefghijklmnopqrst" = "abcdefghijklmnopqrst".take 5 ++ "..." :=
  C9_label_truncation "abcdefghijklmnopqrst" "short" "abcdefghijklmnopqrst"
    (by decide) (by decide) (by decide)

/-- C10: a non-empty single-technology group dataset yields the sentinel
peak defaults — peak_hour "N/A", zero peak counts, empty throughput metrics
and empty top cells — because the Total column indexes both pivot columns
and the missing-column error is caught. -/
theorem C10_single_technology (df : List Row) (_hne : df ≠ [])
    (h : (∀ r ∈ df, r.tech = "4G") ∨ (∀ r ∈ df, r.tech = "5G")) :
    calcSummaryMetrics df = defaultMetrics df ∧
    (calcSummaryMetrics df).peak_hour = "N/A" ∧
    (calcSummaryMetrics df).peak_4g = 0 ∧
    (calcSummaryMetrics df).peak_5g = 0 ∧
    (calcSummaryMetrics df).peak_total = 0 ∧
    (calcSummaryMetrics df).tput_metrics = [] ∧
    (calcSummaryMetrics df).top_cells = [] := by
  have hmiss : "4G" ∉ pivotCols df ∨ "5G" ∉ pivotCols df := by
    rcases h with hall | hall
    · refine Or.inr fun hmem => ?_
      obtain ⟨r, hr, hrt⟩ := List.mem_map.1 ((mem_pivotCols df _).1 hmem)
      exact absurd ((hall r hr).symm.trans hrt) (by decide)
    · refine Or.inl fun hmem => ?_
      obtain ⟨r, hr, hrt⟩ := List.mem_map.1 ((mem_pivotCols df _).1 hmem)
      exact absurd ((hall r hr).symm.trans hrt) (by decide)
  obtain ⟨e, he⟩ := peakBlock_error_of_missing df hmiss
  have hc := calc_eq_default_of_error df e he
  rw [hc]
  exact ⟨rfl, rfl, rfl, rfl, rfl, rfl, rfl⟩

/-- Witness instantiating `C10_single_technology` on a non-empty 4G-only
group. -/
theorem C10_single_technology_witness :
    (oneTech4GDf ≠ [] ∧ ∀ r ∈ oneTech4GDf, r.tech = "4G") ∧
    (calcSummaryMetrics oneTech4GDf).peak_hour = "N/A" ∧
    (calcSummaryMetrics oneTech4GDf).top_cells = [] :=
  ⟨⟨by decide, by decide⟩,
   (C10_single_technology oneTech4GDf (by decide) (Or.inl (by decide))).2.1,
   (C10_single_technology oneTech4GDf (by decide) (Or.inl (by decide))).2.2.2.2.2.2⟩

end DayAfter
